import Mathlib

/-!
Verification of the `credentialsfile` ValueResolver / fileWatcher component
(extension/internal/credentialsfile) against its natural-language
specification.

The embedding models:
- the filesystem as a partial map from paths to full file contents
  (`none` = the file cannot be read, mirroring an `os.ReadFile` error);
- `fileWatcher` state: the watched `path`, the atomic published value
  (`atomic.Pointer[string]`, so `Option String` with `none` = never stored),
  whether an `onChange` callback is registered, a ghost log of callback
  invocations (each entry records the argument passed and the published
  `Value()` observable at invocation time, capturing the publish-then-invoke
  order), and the two lifecycle channels;
- Go channels (`chan struct{}`) by a three-state type: `nil`, open, closed;
- the fsnotify watcher's registration set as a list of watched paths, and
  fsnotify events as (name, op-bitmask) pairs with the fsnotify constants;
- environment nondeterminism (fsnotify.NewWatcher / Watcher.Add failures)
  as boolean parameters.
-/

namespace Credentialsfile

/-- The filesystem: full contents of the file at a path, or `none` when the
file cannot be opened/read (the `os.ReadFile` error case). -/
def FS : Type := String → Option String

/-- State of a Go `chan struct{}` reference: `nil` pointer, open channel, or
closed channel. -/
inductive ChanState where
  | nil
  | opened
  | closed
deriving DecidableEq, Repr

/-- Errors returned by `fileWatcher.reload`: the `os.ReadFile` error, or the
"credentials file is empty" error produced after trimming. -/
inductive ReloadError where
  | readError
  | emptyError
deriving DecidableEq, Repr

/-- Shallow embedding of the `fileWatcher` struct.  `onChangeCalls` is a
ghost log of `onChange` invocations: each entry is the argument passed
together with the result `Value()` would return at the moment of the call
(the callback may read the watcher, so this captures that the value is
published before the callback fires). -/
structure fileWatcher where
  path : String
  value : Option String
  hasOnChange : Bool
  onChangeCalls : List (String × String)
  shutdownCH : ChanState
  doneCH : ChanState
deriving DecidableEq, Repr

/-- `newFileWatcher`: all non-argument fields take their Go zero values
(nil atomic pointer, nil channels). -/
def newFileWatcher (path : String) (hasOnChange : Bool) : fileWatcher :=
  { path := path
    value := none
    hasOnChange := hasOnChange
    onChangeCalls := []
    shutdownCH := ChanState.nil
    doneCH := ChanState.nil }

/-- `fileWatcher.Value`: dereference the atomic pointer, or `""` when it is
nil. -/
def fileWatcher.Value (w : fileWatcher) : String :=
  match w.value with
  | some v => v
  | none => ""

/-- `w.value.Store(&val)`. -/
def fileWatcher.store (w : fileWatcher) (val : String) : fileWatcher :=
  { w with value := some val }

/-- `if w.onChange != nil { w.onChange(val) }`: records the invocation in the
ghost log together with the currently published `Value()`. -/
def fileWatcher.callOnChange (w : fileWatcher) (val : String) : fileWatcher :=
  if w.hasOnChange then
    { w with onChangeCalls := w.onChangeCalls ++ [(val, w.Value)] }
  else w

/-- `unicode.IsSpace` as used by `strings.TrimSpace`, restricted to the
Latin-1 range (the White_Space code points above U+00FF are not
modelled). -/
def goIsSpace (c : Char) : Bool :=
  c == ' ' || c == '\t' || c == '\n' || c == '\u000B' || c == '\u000C' ||
  c == '\r' || c == '\u0085' || c == '\u00A0'

/-- `strings.TrimSpace`: drop leading and trailing whitespace. -/
def trimSpace (s : String) : String :=
  (((s.toList.dropWhile goIsSpace).reverse.dropWhile goIsSpace).reverse).asString

/-- `fileWatcher.reload`: read the full file, trim whitespace
(`strings.TrimSpace`), reject the empty result, otherwise store the trimmed
value and then invoke the callback. -/
def fileWatcher.reload (fs : FS) (w : fileWatcher) : Except ReloadError fileWatcher :=
  match fs w.path with
  | none => Except.error ReloadError.readError
  | some data =>
    let val := trimSpace data
    if val = "" then
      Except.error ReloadError.emptyError
    else
      let w := w.store val
      let w := w.callOnChange val
      Except.ok w

/-- `fileWatcher.reloadQuietly`: a failed reload is logged and the state is
kept unchanged. -/
def fileWatcher.reloadQuietly (fs : FS) (w : fileWatcher) : fileWatcher :=
  match w.reload fs with
  | Except.error _ => w
  | Except.ok w' => w'

/-- Whether a reload against `fs` would succeed from state `w`. -/
def fileWatcher.reloadOk (fs : FS) (w : fileWatcher) : Bool :=
  match w.reload fs with
  | Except.ok _ => true
  | Except.error _ => false

/-! ## fsnotify events and the watch loop -/

/-- fsnotify op bits. -/
def opCreate : Nat := 1
def opWrite : Nat := 2
def opRemove : Nat := 4
def opRename : Nat := 8
def opChmod : Nat := 16

/-- An fsnotify event: affected path and op bitmask. -/
structure Event where
  name : String
  op : Nat
deriving DecidableEq, Repr

/-- `fsnotify.Watcher.Add`: registering an already-watched path leaves the
set unchanged. -/
def addWatch (ws : List String) (p : String) : List String :=
  if p ∈ ws then ws else ws ++ [p]

/-- State shared between the watch loop and the fsnotify watcher it owns:
the `fileWatcher` struct plus the watcher's registration set. -/
structure WatchState where
  fw : fileWatcher
  watches : List String
deriving DecidableEq, Repr

/-- The body of the event case of `fileWatcher.watch`.  It classifies the
event by its op bits only.  For Remove/Chmod: `watcher.Remove(event.Name)`
(an `ErrNonExistentWatch` is tolerated, any other failure is merely logged,
so the registration for `event.Name` is dropped in every case), then
`watcher.Add(w.path)` (`aOk` = whether the re-registration succeeds; a
failure is logged only), then a quiet reload.  For Write: a quiet reload. -/
def handleEvent (fs : FS) (aOk : Bool) (s : WatchState) (e : Event) : WatchState :=
  let s1 :=
    if e.op &&& (opRemove ||| opChmod) ≠ 0 then
      let ws1 := s.watches.erase e.name
      let ws2 := if aOk then addWatch ws1 s.fw.path else ws1
      { fw := fileWatcher.reloadQuietly fs s.fw, watches := ws2 }
    else s
  if e.op &&& opWrite ≠ 0 then
    { s1 with fw := fileWatcher.reloadQuietly fs s1.fw }
  else s1

/-- One wake-up of the watch loop's `select`. -/
inductive LoopInput where
  | shutdownClosed
  | ctxDone
  | eventsClosed
  | event (e : Event)
deriving DecidableEq, Repr

/-- Result of one iteration of the watch loop. -/
inductive StepResult where
  | exit (s : WatchState)
  | continued (s : WatchState)
deriving DecidableEq, Repr

/-- One iteration of the `for { select { ... } }` loop in
`fileWatcher.watch`: the shutdown channel, context cancellation and a closed
events channel all `return`; an event is handled and the loop continues. -/
def watchStep (fs : FS) (aOk : Bool) (s : WatchState) : LoopInput → StepResult
  | LoopInput.shutdownClosed => StepResult.exit s
  | LoopInput.ctxDone => StepResult.exit s
  | LoopInput.eventsClosed => StepResult.exit s
  | LoopInput.event e => StepResult.continued (handleEvent fs aOk s e)

/-- The deferred cleanup run when `fileWatcher.watch` returns:
`watcher.Close()` (dropping all registrations) and `close(w.doneCH)`. -/
def loopExit (s : WatchState) : WatchState :=
  { fw := { s.fw with doneCH := ChanState.closed }, watches := [] }

/-- Run the watch loop over a finite queue of wake-ups.  The boolean records
whether the loop has returned (and hence run its deferred cleanup); with an
exhausted queue and no exit input the loop is still parked in its select. -/
def runLoop (fs : FS) (aOk : Bool) : WatchState → List LoopInput → WatchState × Bool
  | s, [] => (s, false)
  | s, i :: rest =>
    match watchStep fs aOk s i with
    | StepResult.exit s' => (loopExit s', true)
    | StepResult.continued s' => runLoop fs aOk s' rest

/-! ## Start and Shutdown -/

/-- Errors surfaced by `fileWatcher.Start`: the wrapped initial-reload
error, an `fsnotify.NewWatcher()` failure, or a `watcher.Add` failure. -/
inductive StartError where
  | initialLoad (e : ReloadError)
  | newWatcherFailed
  | addFailed
deriving DecidableEq, Repr

/-- Observable outcome of `fileWatcher.Start`: the returned error (if any),
the watcher struct afterwards, the fsnotify registration set, and whether
`go w.watch(ctx, watcher)` was executed. -/
structure StartOutcome where
  err : Option StartError
  fw : fileWatcher
  watches : List String
  loopSpawned : Bool
deriving DecidableEq, Repr

/-- `fileWatcher.Start`, in source order: synchronous `reload()` whose error
is wrapped and returned; `fsnotify.NewWatcher()` (`nwOk` = success) whose
error is returned; channels allocated and the watch loop spawned; and only
then `watcher.Add(w.path)`, whose result is returned. -/
def fileWatcher.Start (fs : FS) (nwOk aOk : Bool) (w : fileWatcher) : StartOutcome :=
  match w.reload fs with
  | Except.error e => { err := some (StartError.initialLoad e), fw := w, watches := [], loopSpawned := false }
  | Except.ok w1 =>
    if nwOk then
      let w2 := { w1 with shutdownCH := ChanState.opened, doneCH := ChanState.opened }
      if aOk then
        { err := none, fw := w2, watches := [w.path], loopSpawned := true }
      else
        { err := some StartError.addFailed, fw := w2, watches := [], loopSpawned := true }
    else
      { err := some StartError.newWatcherFailed, fw := w1, watches := [], loopSpawned := false }

/-- `fileWatcher.Shutdown`, at the level of the whole system (watcher struct,
registration set, and the background loop with its queue of pending
wake-ups).  `none` models a call that never returns normally: closing an
already-closed channel panics, and `<-w.doneCH` blocks forever if the loop
never closes the done channel.  `some s` models returning `nil` with the
system in state `s`. -/
def sysShutdown (fs : FS) (aOk : Bool) (pending : List LoopInput) (s : WatchState) :
    Option WatchState :=
  if s.fw.shutdownCH = ChanState.nil then
    some s
  else if s.fw.shutdownCH = ChanState.closed then
    none
  else
    let s1 : WatchState := { s with fw := { s.fw with shutdownCH := ChanState.closed } }
    let r := runLoop fs aOk s1 (pending ++ [LoopInput.shutdownClosed])
    if r.1.fw.doneCH = ChanState.closed then
      some { r.1 with fw := { r.1.fw with shutdownCH := ChanState.nil } }
    else
      none

/-! ## The factory and the static resolver -/

/-- `type staticValue string`. -/
def staticValue : Type := String

/-- `func (s staticValue) Value() string`. -/
def staticValue.Value (s : staticValue) : String := s

/-- The configuration error `errNoValueProvided`. -/
inductive ConfigError where
  | noValueProvided
deriving DecidableEq, Repr

/-- The two concrete `ValueResolver` variants the factory can build. -/
inductive Resolver where
  | fileW (w : fileWatcher)
  | staticV (s : String)
deriving DecidableEq, Repr

/-- `NewValueResolver`: file path wins when non-empty; otherwise a non-empty
inline value gives a static resolver; otherwise `errNoValueProvided`.
`hasOnChange` models whether a `WithOnChange` option registered a
callback. -/
def NewValueResolver (inlineValue filePath : String) (hasOnChange : Bool) :
    Except ConfigError Resolver :=
  if filePath ≠ "" then
    Except.ok (Resolver.fileW (newFileWatcher filePath hasOnChange))
  else if inlineValue = "" then
    Except.error ConfigError.noValueProvided
  else
    Except.ok (Resolver.staticV inlineValue)

/-! ## Reload sequences (value evolution over the watcher's lifetime)

Every write to `value` in the source is performed by a successful `reload`,
and the watch loop only ever calls `reloadQuietly`; a run of the watcher is
therefore a sequence of quiet reloads, each against the filesystem contents
at that moment. -/

/-- The watcher state after a sequence of quiet reloads, each against the
filesystem state it ran under. -/
def reloadSeq (fss : List FS) (w : fileWatcher) : fileWatcher :=
  match fss with
  | [] => w
  | fs :: rest => reloadSeq rest (fileWatcher.reloadQuietly fs w)

/-- Whether any reload in the sequence succeeded. -/
def seqHadSuccess (fss : List FS) (w : fileWatcher) : Bool :=
  match fss with
  | [] => false
  | fs :: rest =>
    fileWatcher.reloadOk fs w || seqHadSuccess rest (fileWatcher.reloadQuietly fs w)

/-- The published value is never the empty string once set: every stored
value is some non-empty trimmed content. -/
def goodVal (w : fileWatcher) : Prop :=
  ∀ v, w.value = some v → v ≠ ""

/-! ## Supporting lemmas -/

theorem callOnChange_value (w : fileWatcher) (v : String) :
    (w.callOnChange v).value = w.value := by
  unfold fileWatcher.callOnChange
  split <;> rfl

theorem reload_ok_value {fs : FS} {w w' : fileWatcher}
    (h : fileWatcher.reload fs w = Except.ok w') :
    ∃ d, fs w.path = some d ∧ trimSpace d ≠ "" ∧ w'.value = some (trimSpace d) := by
  unfold fileWatcher.reload at h
  cases hfs : fs w.path with
  | none => rw [hfs] at h; cases h
  | some d =>
    rw [hfs] at h
    dsimp only at h
    by_cases hd : trimSpace d = ""
    · rw [if_pos hd] at h; cases h
    · rw [if_neg hd] at h
      cases h
      exact ⟨d, rfl, hd, by rw [callOnChange_value]; rfl⟩

theorem reload_error_quiet {fs : FS} {w : fileWatcher} {e : ReloadError}
    (h : fileWatcher.reload fs w = Except.error e) :
    fileWatcher.reloadQuietly fs w = w := by
  unfold fileWatcher.reloadQuietly
  rw [h]

theorem reload_ok_quiet {fs : FS} {w w' : fileWatcher}
    (h : fileWatcher.reload fs w = Except.ok w') :
    fileWatcher.reloadQuietly fs w = w' := by
  unfold fileWatcher.reloadQuietly
  rw [h]

/-! ## Concrete states used by witnesses and counterexamples -/

/-- A filesystem on which every read fails. -/
def fsNone : FS := fun _ => none

/-- A watcher for path `secret` that has already published `keepme`. -/
def wKeep : fileWatcher :=
  { newFileWatcher "secret" true with value := some "keepme" }

/-! ## Claims -/

/-- C1: a call to `reload()` that returns an error leaves the watcher
unchanged: the published value (hence `Value()`) after a failed quiet
reload equals the value before it, and the `onChange` callback log is not
extended.  A failed reload therefore never clears or empties a value set by
an earlier successful load. -/
theorem reload_error_preserves_value (fs : FS) (w : fileWatcher) (e : ReloadError)
    (h : fileWatcher.reload fs w = Except.error e) :
    fileWatcher.reloadQuietly fs w = w ∧
    (fileWatcher.reloadQuietly fs w).value = w.value ∧
    (fileWatcher.reloadQuietly fs w).Value = w.Value ∧
    (fileWatcher.reloadQuietly fs w).onChangeCalls = w.onChangeCalls := by
  have hq := reload_error_quiet h
  exact ⟨hq, by rw [hq], by rw [hq], by rw [hq]⟩

/-- C1 witness: on a filesystem where the read fails, a watcher holding
`keepme` keeps it and fires no callback. -/
theorem reload_error_preserves_value_witness :
    fileWatcher.reload fsNone wKeep = Except.error ReloadError.readError ∧
    (fileWatcher.reloadQuietly fsNone wKeep = wKeep ∧
     (fileWatcher.reloadQuietly fsNone wKeep).value = wKeep.value ∧
     (fileWatcher.reloadQuietly fsNone wKeep).Value = wKeep.Value ∧
     (fileWatcher.reloadQuietly fsNone wKeep).onChangeCalls = wKeep.onChangeCalls) :=
  ⟨rfl, reload_error_preserves_value fsNone wKeep ReloadError.readError rfl⟩

/-- C2: `reload()` reads the full file at the watched path and fails when
the read fails; it trims whitespace and fails when the trimmed result is
empty; otherwise it publishes the trimmed value and then invokes `onChange`
with it when a callback is registered (the log entry records that the
published `Value()` at invocation time already equals the new value).  The
initial synchronous load performed by `Start` goes through the same
`reload`, so a registered callback fires on the first successful load
too. -/
theorem reload_spec (fs : FS) (w : fileWatcher) :
    (fs w.path = none → fileWatcher.reload fs w = Except.error ReloadError.readError) ∧
    (∀ data, fs w.path = some data → trimSpace data = "" →
      fileWatcher.reload fs w = Except.error ReloadError.emptyError) ∧
    (∀ data, fs w.path = some data → trimSpace data ≠ "" →
      fileWatcher.reload fs w = Except.ok
        { w with value := some (trimSpace data)
                 onChangeCalls := w.onChangeCalls ++
                   (if w.hasOnChange then [(trimSpace data, trimSpace data)] else []) }) ∧
    (∀ nwOk aOk data, fs w.path = some data → trimSpace data ≠ "" → w.hasOnChange = true →
      (fileWatcher.Start fs nwOk aOk w).fw.onChangeCalls
        = w.onChangeCalls ++ [(trimSpace data, trimSpace data)]) := by
  refine ⟨fun hfs => ?_, fun data hfs hd => ?_, fun data hfs hd => ?_,
          fun nwOk aOk data hfs hd hc => ?_⟩
  · unfold fileWatcher.reload
    rw [hfs]
  · unfold fileWatcher.reload
    rw [hfs]
    dsimp only
    rw [if_pos hd]
  · unfold fileWatcher.reload
    rw [hfs]
    dsimp only
    rw [if_neg hd]
    unfold fileWatcher.store fileWatcher.callOnChange fileWatcher.Value
    by_cases hc : w.hasOnChange = true
    · simp only [hc, if_true, if_pos]
    · simp only [Bool.not_eq_true] at hc
      simp [hc]
  · have hok : fileWatcher.reload fs w = Except.ok
        { w with value := some (trimSpace data)
                 onChangeCalls := w.onChangeCalls ++
                   (if w.hasOnChange then [(trimSpace data, trimSpace data)] else []) } := by
      unfold fileWatcher.reload
      rw [hfs]
      dsimp only
      rw [if_neg hd]
      unfold fileWatcher.store fileWatcher.callOnChange fileWatcher.Value
      simp [hc]
    unfold fileWatcher.Start
    rw [hok]
    dsimp only
    cases nwOk <;> cases aOk <;> simp [hc]

/-- C2 witness: a file containing whitespace-padded `tok` loads as `tok`,
publishing first and then firing the callback with the published value; the
initial load performed by `Start` records the same callback invocation. -/
theorem reload_spec_witness :
    fileWatcher.reload (fun _ => some "  tok\n") (newFileWatcher "p" true) =
      Except.ok { newFileWatcher "p" true with
                    value := some "tok", onChangeCalls := [("tok", "tok")] } ∧
    (fileWatcher.Start (fun _ => some "  tok\n") true true
        (newFileWatcher "p" true)).fw.onChangeCalls = [("tok", "tok")] := by
  have h := reload_spec (fun _ => some "  tok\n") (newFileWatcher "p" true)
  constructor
  · have := h.2.2.1 "  tok\n" rfl (by decide)
    simpa using this
  · have := h.2.2.2 true true "  tok\n" rfl (by decide) rfl
    simpa using this

/-- C3: the factory's complete case analysis.  A non-empty `filePath` always
yields the file watcher for that path, whatever `inlineValue` is; with an
empty `filePath`, a non-empty `inlineValue` yields the static resolver whose
`Value()` is always `inlineValue`; with both empty the factory fails with
`errNoValueProvided`.  The three cases cover every input pair, so these are
the only outcomes. -/
theorem NewValueResolver_spec (inl fp : String) (hc : Bool) :
    (fp ≠ "" →
      NewValueResolver inl fp hc = Except.ok (Resolver.fileW (newFileWatcher fp hc)) ∧
      (newFileWatcher fp hc).path = fp) ∧
    (fp = "" → inl ≠ "" →
      NewValueResolver inl fp hc = Except.ok (Resolver.staticV inl) ∧
      staticValue.Value inl = inl) ∧
    (fp = "" → inl = "" →
      NewValueResolver inl fp hc = Except.error ConfigError.noValueProvided) := by
  refine ⟨fun hfp => ⟨?_, rfl⟩, fun hfp hinl => ⟨?_, rfl⟩, fun hfp hinl => ?_⟩
  · unfold NewValueResolver
    rw [if_pos hfp]
  · unfold NewValueResolver
    rw [if_neg (by simp [hfp]), if_neg hinl]
  · unfold NewValueResolver
    rw [if_neg (by simp [hfp]), if_pos hinl]

/-- C3 witness: the three cases at concrete inputs — file wins over inline,
inline alone is static, neither fails. -/
theorem NewValueResolver_spec_witness :
    (NewValueResolver "inline" "f" true = Except.ok (Resolver.fileW (newFileWatcher "f" true)) ∧
      (newFileWatcher "f" true).path = "f") ∧
    (NewValueResolver "myvalue" "" false = Except.ok (Resolver.staticV "myvalue") ∧
      staticValue.Value "myvalue" = "myvalue") ∧
    NewValueResolver "" "" false = Except.error ConfigError.noValueProvided :=
  ⟨(NewValueResolver_spec "inline" "f" true).1 (by decide),
   (NewValueResolver_spec "myvalue" "" false).2.1 rfl (by decide),
   (NewValueResolver_spec "" "" false).2.2 rfl rfl⟩

/-- C4: `Start` returns no error exactly when the initial synchronous reload
succeeds, `fsnotify.NewWatcher()` succeeds, and registering the watch
succeeds; and a failing initial reload is propagated (wrapped as the
initial-load error) with no background loop started. -/
theorem Start_err_iff (fs : FS) (nwOk aOk : Bool) (w : fileWatcher) :
    ((fileWatcher.Start fs nwOk aOk w).err = none ↔
      ((∃ w', fileWatcher.reload fs w = Except.ok w') ∧ nwOk = true ∧ aOk = true)) ∧
    (∀ e, fileWatcher.reload fs w = Except.error e →
      (fileWatcher.Start fs nwOk aOk w).err = some (StartError.initialLoad e) ∧
      (fileWatcher.Start fs nwOk aOk w).loopSpawned = false) := by
  constructor
  · unfold fileWatcher.Start
    cases hr : fileWatcher.reload fs w with
    | error e =>
      simp only []
      constructor
      · intro h; cases h
      · rintro ⟨⟨w', hw'⟩, -, -⟩
        cases hw'
    | ok w1 =>
      cases nwOk <;> cases aOk <;> simp [hr]
  · intro e he
    unfold fileWatcher.Start
    rw [he]
    exact ⟨rfl, rfl⟩

/-- C4 witness: on a filesystem where the read fails, `Start` surfaces the
wrapped read error and spawns no loop. -/
theorem Start_err_iff_witness :
    (fileWatcher.Start fsNone true true (newFileWatcher "p" false)).err
        = some (StartError.initialLoad ReloadError.readError) ∧
    (fileWatcher.Start fsNone true true (newFileWatcher "p" false)).loopSpawned = false :=
  (Start_err_iff fsNone true true (newFileWatcher "p" false)).2 ReloadError.readError rfl

theorem goodVal_reloadQuietly {fs : FS} {w : fileWatcher} (hg : goodVal w) :
    goodVal (fileWatcher.reloadQuietly fs w) := by
  cases hr : fileWatcher.reload fs w with
  | error e => rw [reload_error_quiet hr]; exact hg
  | ok w' =>
    rw [reload_ok_quiet hr]
    obtain ⟨d, -, hd, hv⟩ := reload_ok_value hr
    intro v hvv
    rw [hv] at hvv
    cases hvv
    exact hd

theorem reloadSeq_value_empty (fss : List FS) :
    ∀ w : fileWatcher, goodVal w →
      ((reloadSeq fss w).Value = "" ↔ (seqHadSuccess fss w = false ∧ w.Value = "")) := by
  induction fss with
  | nil =>
    intro w _
    simp [reloadSeq, seqHadSuccess]
  | cons fs rest ih =>
    intro w hg
    cases hr : fileWatcher.reload fs w with
    | error e =>
      have hq := reload_error_quiet hr
      have hok : fileWatcher.reloadOk fs w = false := by
        unfold fileWatcher.reloadOk
        rw [hr]
      simp only [reloadSeq, seqHadSuccess, hq, hok, Bool.false_or]
      exact ih w hg
    | ok w' =>
      have hq := reload_ok_quiet hr
      have hok : fileWatcher.reloadOk fs w = true := by
        unfold fileWatcher.reloadOk
        rw [hr]
      obtain ⟨d, -, hd, hv⟩ := reload_ok_value hr
      have hg' : goodVal w' := by
        intro v hvv
        rw [hv] at hvv
        cases hvv
        exact hd
      have hwv : fileWatcher.Value w' ≠ "" := by
        unfold fileWatcher.Value
        rw [hv]
        exact hd
      have hrec := ih w' hg'
      simp only [reloadSeq, seqHadSuccess, hq, hok, Bool.true_or]
      constructor
      · intro hempty
        exact absurd (((hrec.mp hempty).2)) hwv
      · rintro ⟨h, -⟩
        cases h
    -- both directions in the success case are vacuous: the published value
    -- can no longer be empty, and the success flag can no longer be false

/-- C5: `Value()` is a pure read of the published pointer: whenever a value
has been published it returns exactly that value, and over any sequence of
(quiet) reloads from a fresh watcher it returns the empty string exactly
when no reload in the sequence has succeeded. -/
theorem Value_read_spec :
    (∀ (w : fileWatcher) (v : String), w.value = some v → fileWatcher.Value w = v) ∧
    (∀ (p : String) (hc : Bool) (fss : List FS),
      (reloadSeq fss (newFileWatcher p hc)).Value = "" ↔
        seqHadSuccess fss (newFileWatcher p hc) = false) := by
  constructor
  · intro w v h
    unfold fileWatcher.Value
    rw [h]
  · intro p hc fss
    have hg : goodVal (newFileWatcher p hc) := by
      intro v hv
      cases hv
    have h := reloadSeq_value_empty fss (newFileWatcher p hc) hg
    rw [h]
    simp [fileWatcher.Value, newFileWatcher]

/-- C5 witness: a watcher holding `keepme` reads back `keepme`; from a fresh
watcher, one failed reload still reads back the empty string, and one
successful reload does not. -/
theorem Value_read_spec_witness :
    fileWatcher.Value wKeep = "keepme" ∧
    ((reloadSeq [fsNone] (newFileWatcher "p" false)).Value = "" ↔
      seqHadSuccess [fsNone] (newFileWatcher "p" false) = false) :=
  ⟨Value_read_spec.1 wKeep "keepme" rfl, Value_read_spec.2 "p" false [fsNone]⟩

/-- C6: for every event whose op includes Remove or Chmod, the loop body
(a) drops the watch registration for the event's path — by `List.erase`,
which also covers the tolerated `ErrNonExistentWatch` case where the path
was not registered; (b) re-registers the original watched path exactly when
the re-add succeeds, a failure being logged only; and (c) performs a quiet
reload (twice when the op also carries the Write bit).  The loop step is
total and always continues on an event, for every value of `aOk`, so a
re-registration failure neither terminates the loop nor propagates. -/
theorem watch_removeChmod_spec (fs : FS) (aOk : Bool) (s : WatchState) (e : Event)
    (h : e.op &&& (opRemove ||| opChmod) ≠ 0) :
    ((handleEvent fs aOk s e).watches =
      if aOk then addWatch (s.watches.erase e.name) s.fw.path
      else s.watches.erase e.name) ∧
    ((handleEvent fs aOk s e).fw =
      if e.op &&& opWrite ≠ 0 then
        fileWatcher.reloadQuietly fs (fileWatcher.reloadQuietly fs s.fw)
      else fileWatcher.reloadQuietly fs s.fw) ∧
    (watchStep fs aOk s (LoopInput.event e) =
      StepResult.continued (handleEvent fs aOk s e)) := by
  by_cases hw : e.op &&& opWrite ≠ 0
  · refine ⟨?_, ?_, rfl⟩ <;> simp [handleEvent, h, hw]
  · refine ⟨?_, ?_, rfl⟩ <;> simp [handleEvent, h, hw]

/-- C6 witness: a Remove event for the watched path itself, with the re-add
failing, still erases and continues the loop with a quiet reload. -/
theorem watch_removeChmod_spec_witness :
    Event.op { name := "secret", op := opRemove } &&& (opRemove ||| opChmod) ≠ 0 ∧
    ((handleEvent fsNone false { fw := wKeep, watches := ["secret"] }
        { name := "secret", op := opRemove }).watches =
      (["secret"].erase "secret") ∧
     (handleEvent fsNone false { fw := wKeep, watches := ["secret"] }
        { name := "secret", op := opRemove }).fw =
      fileWatcher.reloadQuietly fsNone wKeep ∧
     watchStep fsNone false { fw := wKeep, watches := ["secret"] }
        (LoopInput.event { name := "secret", op := opRemove }) =
      StepResult.continued (handleEvent fsNone false { fw := wKeep, watches := ["secret"] }
        { name := "secret", op := opRemove })) := by
  have h := watch_removeChmod_spec fsNone false { fw := wKeep, watches := ["secret"] }
    { name := "secret", op := opRemove } (by decide)
  exact ⟨by decide, by simpa using h⟩

/-! C7 concrete states: a Write event whose path differs from the watched
path still triggers a reload and changes the published value. -/

/-- A filesystem holding `new` at the watched path `p`. -/
def fsSibling : FS := fun q => if q = "p" then some "new" else none

/-- A watcher for `p` that has published `old`, with `p` registered. -/
def sSibling : WatchState :=
  { fw := { newFileWatcher "p" false with value := some "old" }, watches := ["p"] }

/-- A Write event for the unrelated sibling path `q`. -/
def eSibling : Event := { name := "q", op := opWrite }

/-- C7 counterexample: processing a Write event whose affected path `q` is
not the watched path `p` does attempt a reload and does modify the
published value (from `old` to `new`), contradicting the claim that such
events leave the watcher's state unchanged. -/
theorem watch_unrelated_event_cex :
    eSibling.name ≠ sSibling.fw.path ∧
    (handleEvent fsSibling true sSibling eSibling).fw.value = some "new" ∧
    sSibling.fw.value = some "old" := by
  refine ⟨by decide, ?_, rfl⟩
  rfl

/-- C7 amended: the watch loop never compares the event's path with the
watched path; it classifies events by op bits alone.  An event carrying none
of the Remove, Chmod or Write bits leaves the state unchanged, while a
Write-only event triggers a quiet reload of the watched path — with the
registration set untouched — regardless of the event's path. -/
theorem watch_op_only_spec (fs : FS) (aOk : Bool) (s : WatchState) (e : Event) :
    (e.op &&& (opRemove ||| opChmod) = 0 → e.op &&& opWrite = 0 →
      handleEvent fs aOk s e = s) ∧
    (e.op &&& (opRemove ||| opChmod) = 0 → e.op &&& opWrite ≠ 0 →
      (handleEvent fs aOk s e).fw = fileWatcher.reloadQuietly fs s.fw ∧
      (handleEvent fs aOk s e).watches = s.watches) := by
  constructor
  · intro h1 h2
    simp [handleEvent, h1, h2]
  · intro h1 h2
    simp [handleEvent, h1, h2]

/-- C7 amended witness: a Create event for a sibling path is a no-op, and
the Write event for sibling path `q` reloads the watched path `p`. -/
theorem watch_op_only_spec_witness :
    handleEvent fsSibling true sSibling { name := "q", op := opCreate } = sSibling ∧
    ((handleEvent fsSibling true sSibling eSibling).fw =
       fileWatcher.reloadQuietly fsSibling sSibling.fw ∧
     (handleEvent fsSibling true sSibling eSibling).watches = sSibling.watches) :=
  ⟨(watch_op_only_spec fsSibling true sSibling { name := "q", op := opCreate }).1
      (by decide) (by decide),
   (watch_op_only_spec fsSibling true sSibling eSibling).2 (by decide) (by decide)⟩

/-! C8 concrete states. -/

/-- A filesystem holding `tok` everywhere. -/
def fsTok : FS := fun _ => some "tok"

/-- C8 counterexample: with a readable non-empty file, a working
`fsnotify.NewWatcher` and a failing `watcher.Add`, `Start` returns the
registration error, yet the background watch loop has already been spawned
— `go w.watch(ctx, watcher)` precedes `watcher.Add(w.path)` in the
source. -/
theorem Start_spawn_order_cex :
    (fileWatcher.Start fsTok true false (newFileWatcher "p" false)).err
        = some StartError.addFailed ∧
    (fileWatcher.Start fsTok true false (newFileWatcher "p" false)).loopSpawned = true :=
  ⟨rfl, rfl⟩

/-- C8 amended: `Start` spawns the background watch loop before registering
the filesystem watch.  Whenever the initial reload succeeds and the watcher
is created, the loop is spawned regardless of whether registration succeeds;
in particular a registration failure makes `Start` return an error with the
loop already running. -/
theorem Start_spawn_before_add (fs : FS) (w : fileWatcher)
    (h : ∃ w', fileWatcher.reload fs w = Except.ok w') :
    (fileWatcher.Start fs true false w).err = some StartError.addFailed ∧
    (∀ aOk, (fileWatcher.Start fs true aOk w).loopSpawned = true) := by
  obtain ⟨w', hw'⟩ := h
  constructor
  · unfold fileWatcher.Start
    rw [hw']
    rfl
  · intro aOk
    unfold fileWatcher.Start
    rw [hw']
    cases aOk <;> rfl

/-- C8 amended witness: concrete run in which registration fails after the
loop was spawned. -/
theorem Start_spawn_before_add_witness :
    (fileWatcher.Start fsTok true false (newFileWatcher "p" false)).err
        = some StartError.addFailed ∧
    (fileWatcher.Start fsTok true false (newFileWatcher "p" false)).loopSpawned = true := by
  have h := Start_spawn_before_add fsTok (newFileWatcher "p" false)
    ⟨{ newFileWatcher "p" false with value := some "tok" }, rfl⟩
  exact ⟨h.1, h.2 false⟩

/-! ## Shutdown -/

theorem runLoop_shutdown_exits (fs : FS) (aOk : Bool) :
    ∀ (pending : List LoopInput) (s : WatchState),
      (runLoop fs aOk s (pending ++ [LoopInput.shutdownClosed])).2 = true ∧
      (runLoop fs aOk s (pending ++ [LoopInput.shutdownClosed])).1.fw.doneCH
        = ChanState.closed := by
  intro pending
  induction pending with
  | nil => intro s; exact ⟨rfl, rfl⟩
  | cons i rest ih =>
    intro s
    cases i with
    | shutdownClosed => exact ⟨rfl, rfl⟩
    | ctxDone => exact ⟨rfl, rfl⟩
    | eventsClosed => exact ⟨rfl, rfl⟩
    | event e =>
      simpa [runLoop, watchStep] using ih (handleEvent fs aOk s e)

/-- C9: `Shutdown` is a no-op returning nil when `Start` never ran (the
shutdown channel is still the nil of `newFileWatcher`); otherwise it closes
the shutdown channel, waits on the done channel — which unblocks only
because the watch loop, woken by the closed shutdown channel after any
pending events, always exits and closes the done channel in its deferred
cleanup — and then returns nil. -/
theorem Shutdown_spec :
    (∀ (p : String) (hc : Bool), (newFileWatcher p hc).shutdownCH = ChanState.nil) ∧
    (∀ (fs : FS) (aOk : Bool) (pending : List LoopInput) (s : WatchState),
      s.fw.shutdownCH = ChanState.nil → sysShutdown fs aOk pending s = some s) ∧
    (∀ (fs : FS) (aOk : Bool) (pending : List LoopInput) (s : WatchState),
      s.fw.shutdownCH = ChanState.opened →
      (runLoop fs aOk { s with fw := { s.fw with shutdownCH := ChanState.closed } }
          (pending ++ [LoopInput.shutdownClosed])).2 = true ∧
      ∃ s', sysShutdown fs aOk pending s = some s' ∧
        s'.fw.doneCH = ChanState.closed ∧ s'.fw.shutdownCH = ChanState.nil) := by
  refine ⟨fun p hc => rfl, fun fs aOk pending s hnil => ?_, fun fs aOk pending s hop => ?_⟩
  · unfold sysShutdown
    rw [if_pos hnil]
  · have hrun := runLoop_shutdown_exits fs aOk pending
      { s with fw := { s.fw with shutdownCH := ChanState.closed } }
    refine ⟨hrun.1, ?_⟩
    unfold sysShutdown
    rw [if_neg (by rw [hop]; intro hc; cases hc),
        if_neg (by rw [hop]; intro hc; cases hc)]
    rw [if_pos hrun.2]
    exact ⟨_, rfl, hrun.2, rfl⟩

/-- A started watcher system: channels open, path registered, queue empty. -/
def sStarted : WatchState :=
  { fw := { newFileWatcher "p" false with
              shutdownCH := ChanState.opened, doneCH := ChanState.opened }
    watches := ["p"] }

/-- C9 witness: a fresh watcher has a nil shutdown channel; shutting down a
never-started watcher is a no-op; shutting down a started one exits the
loop, closes the done channel and nils the shutdown channel. -/
theorem Shutdown_spec_witness :
    (newFileWatcher "p" false).shutdownCH = ChanState.nil ∧
    sysShutdown fsNone true [] { fw := newFileWatcher "p" false, watches := [] }
      = some { fw := newFileWatcher "p" false, watches := [] } ∧
    ((runLoop fsNone true
        { sStarted with fw := { sStarted.fw with shutdownCH := ChanState.closed } }
        ([] ++ [LoopInput.shutdownClosed])).2 = true ∧
      ∃ s', sysShutdown fsNone true [] sStarted = some s' ∧
        s'.fw.doneCH = ChanState.closed ∧ s'.fw.shutdownCH = ChanState.nil) :=
  ⟨Shutdown_spec.1 "p" false,
   Shutdown_spec.2.1 fsNone true [] { fw := newFileWatcher "p" false, watches := [] } rfl,
   Shutdown_spec.2.2 fsNone true [] sStarted rfl⟩

/-- C10: sequential `Shutdown` calls are idempotent.  From any state whose
shutdown channel is not a dangling closed channel (the only states a
sequential caller can observe), a `Shutdown` that returns leaves the
shutdown channel nil, so every subsequent call returns nil immediately — it
takes the nil branch, independent of the filesystem, the re-add behaviour
and any pending loop inputs — without changing any state. -/
theorem Shutdown_idempotent (fs : FS) (aOk : Bool) (pending : List LoopInput)
    (s s' : WatchState) (hnc : s.fw.shutdownCH ≠ ChanState.closed)
    (h : sysShutdown fs aOk pending s = some s') :
    s'.fw.shutdownCH = ChanState.nil ∧
    (∀ (fs2 : FS) (aOk2 : Bool) (pending2 : List LoopInput),
      sysShutdown fs2 aOk2 pending2 s' = some s') := by
  have hs' : s'.fw.shutdownCH = ChanState.nil := by
    unfold sysShutdown at h
    by_cases hnil : s.fw.shutdownCH = ChanState.nil
    · rw [if_pos hnil] at h
      cases h
      exact hnil
    · rw [if_neg hnil, if_neg hnc] at h
      by_cases hd : (runLoop fs aOk
          { s with fw := { s.fw with shutdownCH := ChanState.closed } }
          (pending ++ [LoopInput.shutdownClosed])).1.fw.doneCH = ChanState.closed
      · rw [if_pos hd] at h
        cases h
        rfl
      · rw [if_neg hd] at h
        cases h
  refine ⟨hs', fun fs2 aOk2 pending2 => ?_⟩
  unfold sysShutdown
  rw [if_pos hs']

/-- The system state after `sStarted` has been shut down: done channel
closed, shutdown channel nil again, registrations dropped. -/
def sStopped : WatchState :=
  { fw := { newFileWatcher "p" false with doneCH := ChanState.closed }, watches := [] }

/-- C10 witness: after shutting down a started watcher, a second call with a
different filesystem and a non-empty pending queue still returns the state
unchanged. -/
theorem Shutdown_idempotent_witness :
    sysShutdown fsNone true [] sStarted = some sStopped ∧
    sStopped.fw.shutdownCH = ChanState.nil ∧
    sysShutdown fsTok false [LoopInput.ctxDone] sStopped = some sStopped := by
  have h := Shutdown_idempotent fsNone true [] sStarted sStopped
    (by intro hc; cases hc) rfl
  exact ⟨rfl, h.1, h.2 fsTok false [LoopInput.ctxDone]⟩

end Credentialsfile
